import Mathlib

/-!
Shallow embedding of the wasm fuel partition API (src/wasm_api.h,
src/src/wasm_api.c, src/main.c): a fixed-size partition registry over the
Wasmtime engine, fuel injection, resumable (async) calls driven by a
round-robin scheduler cycle, and global cleanup.

External engine behaviour (file input, compilation, instantiation, polling a
call future) is supplied through explicit outcome parameters, since the engine
is an out-of-scope collaborator. Heap events are tracked explicitly: each
malloc of a partition struct gets a fresh allocation identifier and every
free of it is recorded in a list, so that release-exactly-once properties can
be stated. Registry indices are modelled as a total function on Int: indices
outside [0, NUM_MAX_PARTITIONS) correspond to out-of-bounds array accesses of
the C code.
-/

namespace WasmFuelApi

/-- NUM_MAX_PARTITIONS from wasm_api.h. -/
def NUM_MAX_PARTITIONS : Nat := 2

/-- FUEL_AMOUNT from wasm_api.h. -/
def FUEL_AMOUNT : Nat := 10000000

/-- YIELD_AFTER from wasm_api.h. -/
def YIELD_AFTER : Nat := 100

/-- WASM_API_ERR error code from wasm_api.h. -/
def WASM_API_ERR : Int := -1

/-- WASM_API_OK success code from wasm_api.h. -/
def WASM_API_OK : Int := 0

/-- ERR tag from wasm_api.c (argument of catch_err). -/
def ERR : Int := -1

/-- TRAP tag from wasm_api.c (argument of catch_err). -/
def TRAP : Int := 0

/-- PARTITION_DONE, first enumerator of partition_status in wasm_api.h
(C enum values start at 0). -/
def PARTITION_DONE : Int := 0

/-- PARTITION_YIELDED, second enumerator of partition_status. -/
def PARTITION_YIELDED : Int := 1

/-- PARTITION_ERROR, third enumerator of partition_status. -/
def PARTITION_ERROR : Int := 2

/-- The wasm_partition struct of wasm_api.h. Engine handles (module, instance,
store/context, linker, future, exported_func) are modelled as optional
allocation identifiers, none standing for a NULL pointer. `results` models the
`wasmtime_val_t *results` buffer: none = NULL pointer, some none = allocated
but with no defined value yet, some (some v) = buffer holding value v.
`allocId` is the identity of the malloc allocation backing this struct (model
bookkeeping for free tracking). `fuel` and `yieldInterval` model the state of
this partition's store context as set by wasmtime_context_set_fuel and
wasmtime_context_fuel_async_yield_interval. -/
structure wasm_partition where
  module : Option Nat
  wasmInstance : Option Nat
  context : Option Nat
  store : Option Nat
  linker : Option Nat
  future : Option Nat
  partition_id : Int
  instantiated : Bool
  results : Option (Option Int)
  exported_func : Option Nat
  allocId : Nat
  fuel : Option Nat
  yieldInterval : Nat
deriving DecidableEq, Repr

/-- Global state of wasm_api.c: the `partitions` array (total on Int; only
[0, NUM_MAX_PARTITIONS) is the real array), the global engine handle, a fresh
allocation counter, and event logs for free / module delete / store delete,
used to state release-exactly-once properties. -/
structure ApiState where
  partitions : Int → Option wasm_partition
  engine : Bool
  nextAlloc : Nat
  freedAllocs : List Nat
  deletedModules : List (Option Nat)
  deletedStores : List (Option Nat)

/-- Overwrite the registry slot for `partition_id` with partition `p`. Since
the C array stores a pointer and field assignments mutate the pointee, every
field update of the local `partition` variable is reflected into the slot. -/
def setPartition (st : ApiState) (partition_id : Int) (p : wasm_partition) :
    ApiState :=
  { st with partitions := Function.update st.partitions partition_id (some p) }

/-- catch_err from wasm_api.c: prints a message and releases the error or trap
object; every branch, including the argument-sanity branch, returns
WASM_API_ERR. `hasErr` / `hasTrap` model whether the err / trap pointer is
non-NULL. -/
def catch_err (errType : Int) (hasErr : Bool) (hasTrap : Bool) : Int :=
  if (errType ≠ ERR ∧ errType ≠ TRAP) ∨ (errType = ERR ∧ hasErr = false) ∨
      (errType = TRAP ∧ hasTrap = false) then
    WASM_API_ERR
  else if errType = ERR then
    WASM_API_ERR
  else if errType = TRAP then
    WASM_API_ERR
  else
    WASM_API_ERR

/-- partitionIdValid from wasm_api.c, line for line: the guard is
`partition_id < 0 || partition_id > NUM_MAX_PARTITIONS` (a strict `>` against
NUM_MAX_PARTITIONS itself, although the function's own comment says the
maximum is NUM_MAX_PARTITIONS - 1). -/
def partitionIdValid (partition_id : Int) : Int :=
  if partition_id < 0 ∨ partition_id > (NUM_MAX_PARTITIONS : Int) then
    WASM_API_ERR
  else
    WASM_API_OK

/-- get_wasm_partition from wasm_api.c: calls partitionIdValid but discards
its result, then returns partitions[partition_id] unconditionally. -/
def get_wasm_partition (st : ApiState) (partition_id : Int) :
    Option wasm_partition :=
  let _ := partitionIdValid partition_id
  st.partitions partition_id

/-- wasm_api_init from wasm_api.c: creates config and engine; on engine
creation failure returns WASM_API_ERR, otherwise records the live engine. -/
def wasm_api_init (st : ApiState) (engineOk : Bool) : ApiState × Int :=
  if engineOk then ({ st with engine := true }, WASM_API_OK)
  else (st, WASM_API_ERR)

/-- Outcome of the external steps of wasm_api_load_partition, in program
order: malloc of the struct, wasmtime_store_new, fopen, fread,
wasmtime_module_new, wasmtime_linker_instantiate_pre, and the async
instantiation. `ok` means every step succeeded. -/
inductive LoadOutcome where
  | mallocFail
  | storeFail
  | fileOpenFail
  | fileReadFail
  | compileFail
  | instantiatePreFail
  | instantiateFail
  | ok
deriving DecidableEq, Repr

/-- wasm_api_load_partition from wasm_api.c, transliterated in program order.
`junk` is the uninitialized content of the freshly malloc'd struct (malloc
does not zero memory). Fresh handle identifiers are drawn from st.nextAlloc:
the struct allocation is a = nextAlloc, the store a+1 (its context is the
same handle), the linker a+2, the module a+3, the instance a+4.

Key control-flow facts mirrored from the source: the slot
partitions[partition_id] is assigned right after malloc (line 191), before
the store, file, compile and instantiate steps; on fread or compile failure
the struct is freed but the slot is not cleared; on fopen, instantiate-pre or
instantiate failure the struct is neither freed nor removed from the slot. -/
def wasm_api_load_partition (st : ApiState) (partition_id : Int)
    (junk : wasm_partition) (outcome : LoadOutcome) : ApiState × Int :=
  if partitionIdValid partition_id ≠ WASM_API_OK then
    (st, WASM_API_ERR)
  else if (st.partitions partition_id).isSome then
    (st, WASM_API_ERR)
  else if outcome = LoadOutcome.mallocFail then
    (st, WASM_API_ERR)
  else
    let a := st.nextAlloc
    let p1 : wasm_partition :=
      { junk with allocId := a, partition_id := partition_id }
    let st1 : ApiState :=
      { st with nextAlloc := st.nextAlloc + 5,
                partitions := Function.update st.partitions partition_id
                  (some p1) }
    if outcome = LoadOutcome.storeFail then
      (setPartition st1 partition_id { p1 with store := none }, WASM_API_ERR)
    else
      let p2 : wasm_partition :=
        { p1 with store := some (a + 1), context := some (a + 1),
                  linker := some (a + 2), module := none,
                  instantiated := false, fuel := none, yieldInterval := 0 }
      let st2 := setPartition st1 partition_id p2
      if outcome = LoadOutcome.fileOpenFail then
        (st2, WASM_API_ERR)
      else if outcome = LoadOutcome.fileReadFail then
        ({ st2 with freedAllocs := st2.freedAllocs ++ [a] }, WASM_API_ERR)
      else if outcome = LoadOutcome.compileFail then
        ({ st2 with freedAllocs := st2.freedAllocs ++ [a] }, WASM_API_ERR)
      else
        let p3 : wasm_partition := { p2 with module := some (a + 3) }
        let st3 := setPartition st2 partition_id p3
        if outcome = LoadOutcome.instantiatePreFail then
          (st3, WASM_API_ERR)
        else if outcome = LoadOutcome.instantiateFail then
          (st3, WASM_API_ERR)
        else
          let p4 : wasm_partition :=
            { p3 with wasmInstance := some (a + 4), future := none,
                      instantiated := true }
          (setPartition st3 partition_id p4, WASM_API_OK)

/-- Outcome of wasmtime_func_call_async in wasm_api_run_partition: `started`
carries the returned future handle with no synchronous error; `errSync`
models the branch where the error or trap out-parameter is non-NULL right
after the call, carrying whatever future pointer the call returned (the code
assigns it to partition->future before checking the error). -/
inductive StartOutcome where
  | started (futureId : Nat)
  | errSync (futureRet : Option Nat)
deriving DecidableEq, Repr

/-- Outcome of one wasmtime_call_future_poll on the in-flight call, per the
engine contract poll -> Completed(results) | Suspended | Trap. The C
function returns a bool: true when the call finished (completed with results
written, or trapped with the trap recorded in the out-parameters of the
original call), false when suspended. -/
inductive PollOutcome where
  | completed (value : Int)
  | suspended
  | trapped
deriving DecidableEq, Repr

/-- External outcomes consumed by one wasm_api_run_partition invocation:
whether the malloc of the results buffer succeeds (used only when
partition->results is NULL), the result of the export lookup (none = export
absent or not a function, some f = function handle f), the outcome of
starting the async call, and the outcome of the single poll. -/
structure RunOracle where
  resultsMallocOk : Bool
  exportFunc : Option Nat
  start : StartOutcome
  poll : PollOutcome
deriving DecidableEq, Repr

/-- The poll tail of wasm_api_run_partition (lines 381-392): poll the
in-flight future once. If poll returns true the code prints the results
buffer, deletes the future, clears partition->future and returns
PARTITION_DONE — it never inspects the trap or error out-parameters, so a
trapped call takes exactly the same path except that the engine has not
written a new result. If poll returns false it returns PARTITION_YIELDED
with the future left in flight. -/
def pollStep (st : ApiState) (partition_id : Int) (p : wasm_partition)
    (po : PollOutcome) : ApiState × Int :=
  match po with
  | PollOutcome.suspended => (st, PARTITION_YIELDED)
  | PollOutcome.completed v =>
      (setPartition st partition_id
        { p with results := some (some v), future := none }, PARTITION_DONE)
  | PollOutcome.trapped =>
      (setPartition st partition_id { p with future := none }, PARTITION_DONE)

/-- The part of wasm_api_run_partition after the results-buffer step (lines
333-392 of wasm_api.c), given the (possibly updated) partition `p` whose
slot has already been refreshed in `st`: the instantiated check; then, when
partition->future is NULL, the export lookup and the start of a new async
call — the returned future is assigned to partition->future before the
synchronous error check, which returns WASM_API_ERR without clearing the
field; when a future is already in flight the whole start block is skipped;
finally the future is polled once. -/
def runAfterResults (st : ApiState) (partition_id : Int) (p : wasm_partition)
    (o : RunOracle) : ApiState × Int :=
  if p.instantiated = false then
    (st, WASM_API_ERR)
  else
    match p.future with
    | none =>
      match o.exportFunc with
      | none => (st, WASM_API_ERR)
      | some f =>
        let p2 : wasm_partition := { p with exported_func := some f }
        match o.start with
        | StartOutcome.errSync futureRet =>
            (setPartition st partition_id { p2 with future := futureRet },
              WASM_API_ERR)
        | StartOutcome.started fid =>
            let p3 : wasm_partition := { p2 with future := some fid }
            pollStep (setPartition st partition_id p3) partition_id p3 o.poll
    | some _ => pollStep st partition_id p o.poll

/-- wasm_api_run_partition from wasm_api.c, transliterated in program order.
The function performs no partition-id bounds check and immediately
dereferences partitions[partition_id]; a NULL slot is a NULL-pointer
dereference, modelled as none (undefined behaviour). The results-buffer
malloc (lines 325-331) runs before the instantiated check (line 333); the
rest of the function is runAfterResults. -/
def wasm_api_run_partition (st : ApiState) (partition_id : Int)
    (o : RunOracle) : Option (ApiState × Int) :=
  match st.partitions partition_id with
  | none => none
  | some p =>
    if p.results = none ∧ o.resultsMallocOk = false then
      some (st, WASM_API_ERR)
    else
      let q : wasm_partition :=
        if p.results = none then { p with results := some none } else p
      some (runAfterResults (setPartition st partition_id q) partition_id q o)

/-- wasm_api_inject_fuel from wasm_api.c: dereferences the slot without any
check (none = NULL dereference, undefined behaviour), calls
wasmtime_context_set_fuel and passes its error to catch_err whose return
value is discarded, then sets the async yield interval to YIELD_AFTER or 0,
and returns WASM_API_OK unconditionally. `setFuelErr` models whether
wasmtime_context_set_fuel returned an error (in which case the context fuel
is not updated). -/
def wasm_api_inject_fuel (st : ApiState) (partition_id : Int)
    (fuel_amount : Nat) (yieldOn : Bool) (setFuelErr : Bool) :
    Option (ApiState × Int) :=
  match st.partitions partition_id with
  | none => none
  | some p =>
    let _ := catch_err ERR setFuelErr false
    let p := if setFuelErr then p else { p with fuel := some fuel_amount }
    let p := { p with yieldInterval := if yieldOn then YIELD_AFTER else 0 }
    some (setPartition st partition_id p, WASM_API_OK)

/-- One iteration of the slot loop in wasm_api_cleanup: if the slot is
occupied, delete the module and store when the partition is marked
instantiated, free the struct allocation, and clear the slot. -/
def cleanupSlot (st : ApiState) (i : Int) : ApiState :=
  match st.partitions i with
  | none => st
  | some p =>
    let st1 :=
      if p.instantiated then
        { st with deletedModules := st.deletedModules ++ [p.module],
                  deletedStores := st.deletedStores ++ [p.store] }
      else st
    { st1 with freedAllocs := st1.freedAllocs ++ [p.allocId],
               partitions := Function.update st1.partitions i none }

/-- wasm_api_cleanup from wasm_api.c: iterates slots 0..NUM_MAX_PARTITIONS-1,
then deletes the engine if live. -/
def wasm_api_cleanup (st : ApiState) : ApiState :=
  let st1 := (List.range NUM_MAX_PARTITIONS).foldl
    (fun s i => cleanupSlot s (Int.ofNat i)) st
  if st1.engine then { st1 with engine := false } else st1

/-- The branches of the switch statement in sched_cycle (main.c). -/
inductive SchedBranch where
  | done
  | yielded
  | error
  | unknown
deriving DecidableEq, Repr

/-- Dispatch of sched_cycle's switch on the value returned by
wasm_api_run_partition: PARTITION_DONE, PARTITION_YIELDED and PARTITION_ERROR
have their own cases, every other value falls to the default branch. -/
def sched_dispatch (status : Int) : SchedBranch :=
  if status = PARTITION_DONE then SchedBranch.done
  else if status = PARTITION_YIELDED then SchedBranch.yielded
  else if status = PARTITION_ERROR then SchedBranch.error
  else SchedBranch.unknown

/-- Update of sched_cycle's `num_partition` index for one iteration: only the
PARTITION_YIELDED case advances it, to (num_partition + 1) mod
NUM_MAX_PARTITIONS; every other status leaves it unchanged. -/
def sched_next_index (num_partition : Nat) (status : Int) : Nat :=
  if status = PARTITION_YIELDED then
    (num_partition + 1) % NUM_MAX_PARTITIONS
  else
    num_partition

/-- The state right after wasm_api_init succeeds: empty registry, live
engine, no heap events yet. -/
def emptyState : ApiState :=
  { partitions := fun _ => none, engine := true, nextAlloc := 0,
    freedAllocs := [], deletedModules := [], deletedStores := [] }

/-- A concrete junk content for a freshly malloc'd partition struct (malloc
does not zero memory, so every field starts out arbitrary). -/
def junk0 : wasm_partition :=
  { module := some 90, wasmInstance := some 91, context := some 92,
    store := some 93, linker := some 94, future := some 95, partition_id := 96,
    instantiated := true, results := some (some 97), exported_func := some 98,
    allocId := 99, fuel := some 90, yieldInterval := 91 }

/-- State after a successful load of partition 0 from the post-init state. -/
def loadedState : ApiState :=
  (wasm_api_load_partition emptyState 0 junk0 LoadOutcome.ok).1

/-- Result of loading partition 0 when the module compile step fails. -/
def loadCompileFailRes : ApiState × Int :=
  wasm_api_load_partition emptyState 0 junk0 LoadOutcome.compileFail

/-- State after loading partition 0 fails at the fopen step: the slot holds a
half-initialized, never-instantiated partition. -/
def stOpenFail : ApiState :=
  (wasm_api_load_partition emptyState 0 junk0 LoadOutcome.fileOpenFail).1

/-- A run oracle whose external steps all succeed and whose poll suspends. -/
def oracleYield : RunOracle :=
  { resultsMallocOk := true, exportFunc := some 10,
    start := StartOutcome.started 11, poll := PollOutcome.suspended }

/-- A concrete instantiated partition with an in-flight resumable call
(future handle 7) and an allocated results buffer. -/
def pInflight : wasm_partition :=
  { module := some 3, wasmInstance := some 4, context := some 1,
    store := some 1, linker := some 2, future := some 7, partition_id := 0,
    instantiated := true, results := some (some 42), exported_func := some 6,
    allocId := 0, fuel := some 500, yieldInterval := 100 }

/-- A registry state holding pInflight in slot 0. -/
def stInflight : ApiState := setPartition emptyState 0 pInflight

/-- The same partition with no call in flight. -/
def pIdle : wasm_partition := { pInflight with future := none }

/-- A registry state holding pIdle in slot 0. -/
def stIdle : ApiState := setPartition emptyState 0 pIdle

/-- A run oracle whose poll reports a trap. -/
def oracleTrap : RunOracle :=
  { resultsMallocOk := true, exportFunc := some 10,
    start := StartOutcome.started 11, poll := PollOutcome.trapped }

/-- A run oracle whose start of the async call reports a synchronous error,
the call returning the (non-NULL) future handle 9. -/
def oracleStartErr : RunOracle :=
  { resultsMallocOk := true, exportFunc := some 10,
    start := StartOutcome.errSync (some 9), poll := PollOutcome.suspended }

/-- A run oracle whose poll reports completion with result 55. -/
def oracleComplete : RunOracle :=
  { resultsMallocOk := true, exportFunc := some 10,
    start := StartOutcome.started 11, poll := PollOutcome.completed 55 }

/-- Result of a successful load of partition 0 followed by a load of
partition 1 that fails at the compile step (a bad binary). -/
def partialFailStates : (ApiState × Int) × (ApiState × Int) :=
  let r0 := wasm_api_load_partition emptyState 0 junk0 LoadOutcome.ok
  (r0, wasm_api_load_partition r0.1 1 junk0 LoadOutcome.compileFail)

/-- State after calling wasm_api_cleanup on the partial-failure scenario. -/
def cleanupAfterPartialFail : ApiState :=
  wasm_api_cleanup partialFailStates.2.1

end WasmFuelApi

namespace WasmFuelApi

/-- C1: the claim says every out-of-range id (negative or >=
NUM_MAX_PARTITIONS) makes lookup, load and run fail with an invalid-id error
and no mutation. The code disagrees: partitionIdValid compares with a strict
`>` against NUM_MAX_PARTITIONS, so the out-of-range id NUM_MAX_PARTITIONS
itself is accepted as valid (an off-by-one contradicting the function's own
comment), and get_wasm_partition discards the validity result and indexes the
array unconditionally, for negative ids included. -/
theorem C1_out_of_range_id_not_rejected :
    partitionIdValid (NUM_MAX_PARTITIONS : Int) = WASM_API_OK ∧
    partitionIdValid (-1) = WASM_API_ERR ∧
    (∀ st : ApiState, get_wasm_partition st (-1) = st.partitions (-1)) :=
  ⟨by decide, by decide, fun _ => rfl⟩

/-- C2: the claim says a load that fails after allocation releases the
partially-built partition and leaves the registry slot empty. The code
disagrees: on a compile failure it frees the struct (allocation 0 appears in
the free log) but the registry slot for the id still holds that very
partition (allocId 0) — a dangling pointer, not an empty slot. -/
theorem C2_failed_load_leaves_dangling_slot :
    loadCompileFailRes.2 = WASM_API_ERR ∧
    Option.map wasm_partition.allocId (loadCompileFailRes.1.partitions 0) =
      some 0 ∧
    loadCompileFailRes.1.freedAllocs = [0] := by
  decide

/-- C6: loading into an in-range id whose slot is already occupied fails with
WASM_API_ERR before any allocation or engine call, and the whole state — the
registry, the previously loaded partition, and all heap logs — is returned
unchanged. -/
theorem C6_double_load_rejected (st : ApiState) (partition_id : Int)
    (junk : wasm_partition) (outcome : LoadOutcome)
    (h0 : 0 ≤ partition_id)
    (h1 : partition_id < (NUM_MAX_PARTITIONS : Int))
    (h2 : (st.partitions partition_id).isSome = true) :
    wasm_api_load_partition st partition_id junk outcome =
      (st, WASM_API_ERR) := by
  have hv : partitionIdValid partition_id = WASM_API_OK := by
    unfold partitionIdValid
    rw [if_neg]
    intro hc
    rcases hc with hc | hc
    · omega
    · have : ((NUM_MAX_PARTITIONS : Nat) : Int) = 2 := by decide
      omega
  unfold wasm_api_load_partition
  rw [hv]
  simp [h2]

/-- Witness for C6: loading partition 0 a second time after a successful load
is rejected with the state unchanged. -/
theorem C6_double_load_rejected_witness :
    wasm_api_load_partition loadedState 0 junk0 LoadOutcome.ok =
      (loadedState, WASM_API_ERR) :=
  C6_double_load_rejected loadedState 0 junk0 LoadOutcome.ok (by decide)
    (by decide) (by decide)

/-- Helper: one poll step returns PARTITION_DONE or PARTITION_YIELDED. -/
theorem pollStep_snd (st : ApiState) (partition_id : Int)
    (p : wasm_partition) (po : PollOutcome) :
    (pollStep st partition_id p po).2 = PARTITION_DONE ∨
    (pollStep st partition_id p po).2 = PARTITION_YIELDED := by
  cases po <;> simp [pollStep]

/-- Helper: the post-results part of a run slice returns PARTITION_DONE,
PARTITION_YIELDED or WASM_API_ERR. -/
theorem runAfterResults_snd (st : ApiState) (partition_id : Int)
    (p : wasm_partition) (o : RunOracle) :
    (runAfterResults st partition_id p o).2 = PARTITION_DONE ∨
    (runAfterResults st partition_id p o).2 = PARTITION_YIELDED ∨
    (runAfterResults st partition_id p o).2 = WASM_API_ERR := by
  unfold runAfterResults
  by_cases hinst : p.instantiated = false
  · simp [hinst]
  · rw [if_neg hinst]
    cases hfut : p.future with
    | some fid =>
      rcases pollStep_snd st partition_id p o.poll with h | h
      · exact Or.inl h
      · exact Or.inr (Or.inl h)
    | none =>
      cases hef : o.exportFunc with
      | none => simp
      | some f =>
        cases hso : o.start with
        | errSync futureRet => simp
        | started fid =>
          rcases pollStep_snd
              (setPartition st partition_id
                { p with exported_func := some f, future := some fid })
              partition_id
              { p with exported_func := some f, future := some fid }
              o.poll with h | h
          · exact Or.inl h
          · exact Or.inr (Or.inl h)

/-- Helper: every defined invocation of wasm_api_run_partition returns
PARTITION_DONE, PARTITION_YIELDED or WASM_API_ERR. -/
theorem run_status_cases (st : ApiState) (partition_id : Int) (o : RunOracle)
    (r : Int)
    (h : Option.map Prod.snd (wasm_api_run_partition st partition_id o) =
      some r) :
    r = PARTITION_DONE ∨ r = PARTITION_YIELDED ∨ r = WASM_API_ERR := by
  rcases Option.map_eq_some'.mp h with ⟨⟨st', r'⟩, hrun, hr⟩
  simp only [Prod.snd] at hr
  subst hr
  unfold wasm_api_run_partition at hrun
  cases hp : st.partitions partition_id with
  | none =>
    rw [hp] at hrun
    exact Option.noConfusion hrun
  | some p =>
    rw [hp] at hrun
    replace hrun :
        (if p.results = none ∧ o.resultsMallocOk = false then
            some (st, WASM_API_ERR)
          else
            some (runAfterResults
              (setPartition st partition_id
                (if p.results = none then { p with results := some none }
                  else p))
              partition_id
              (if p.results = none then { p with results := some none }
                else p)
              o)) = some (st', r') := hrun
    by_cases hm : p.results = none ∧ o.resultsMallocOk = false
    · rw [if_pos hm] at hrun
      simp only [Option.some.injEq, Prod.mk.injEq] at hrun
      exact Or.inr (Or.inr hrun.2.symm)
    · rw [if_neg hm] at hrun
      simp only [Option.some.injEq] at hrun
      have hsnd := congrArg Prod.snd hrun
      simp only [Prod.snd] at hsnd
      rw [← hsnd]
      exact runAfterResults_snd _ _ _ _

/-- C3: the claim says wasm_api_run_partition always returns one of the three
partition_status enumerators and that every failure path returns the Failed
member (PARTITION_ERROR). Counterexample: running a partition whose load
failed at the fopen step (module not instantiated) returns WASM_API_ERR = -1,
which is none of PARTITION_DONE, PARTITION_YIELDED, PARTITION_ERROR. -/
theorem C3_failure_status_counterexample :
    Option.map Prod.snd (wasm_api_run_partition stOpenFail 0 oracleYield) =
      some WASM_API_ERR ∧
    WASM_API_ERR ≠ PARTITION_DONE ∧ WASM_API_ERR ≠ PARTITION_YIELDED ∧
    WASM_API_ERR ≠ PARTITION_ERROR := by
  decide

/-- C3 (amended): every defined invocation of wasm_api_run_partition returns
PARTITION_DONE on completion or PARTITION_YIELDED on suspension, and every
failure path returns WASM_API_ERR (-1), which is not a partition_status
enumerator — PARTITION_ERROR is never returned. -/
theorem C3_run_status_amended (st : ApiState) (partition_id : Int)
    (o : RunOracle) (r : Int)
    (h : Option.map Prod.snd (wasm_api_run_partition st partition_id o) =
      some r) :
    (r = PARTITION_DONE ∨ r = PARTITION_YIELDED ∨ r = WASM_API_ERR) ∧
    r ≠ PARTITION_ERROR := by
  have hc := run_status_cases st partition_id o r h
  refine ⟨hc, ?_⟩
  rcases hc with hc | hc | hc <;> subst hc <;> decide

/-- Witness for C3 (amended): the failed run of the never-instantiated
partition indeed lands in the WASM_API_ERR case. -/
theorem C3_run_status_amended_witness :
    (WASM_API_ERR = PARTITION_DONE ∨ WASM_API_ERR = PARTITION_YIELDED ∨
      WASM_API_ERR = WASM_API_ERR) ∧ WASM_API_ERR ≠ PARTITION_ERROR :=
  C3_run_status_amended stOpenFail 0 oracleYield WASM_API_ERR (by decide)

/-- C9: PARTITION_ERROR is unreachable as a result of wasm_api_run_partition
— every result is PARTITION_DONE, PARTITION_YIELDED or WASM_API_ERR, and any
result other than the first two is exactly WASM_API_ERR (-1); since -1
matches no case of sched_cycle's switch, a failed slice is dispatched to the
default (unknown-status) branch, never to the PARTITION_ERROR branch. -/
theorem C9_partition_error_unreachable (st : ApiState) (partition_id : Int)
    (o : RunOracle) (r : Int)
    (h : Option.map Prod.snd (wasm_api_run_partition st partition_id o) =
      some r) :
    r ≠ PARTITION_ERROR ∧
    (r ≠ PARTITION_DONE → r ≠ PARTITION_YIELDED → r = WASM_API_ERR) ∧
    sched_dispatch WASM_API_ERR = SchedBranch.unknown := by
  have hc := run_status_cases st partition_id o r h
  refine ⟨?_, ?_, by decide⟩
  · rcases hc with hc | hc | hc <;> subst hc <;> decide
  · intro h1 h2
    rcases hc with hc | hc | hc
    · exact absurd hc h1
    · exact absurd hc h2
    · exact hc

/-- Witness for C9: the run of the never-instantiated partition returns -1,
which is not PARTITION_ERROR and dispatches to the default branch. -/
theorem C9_partition_error_unreachable_witness :
    WASM_API_ERR ≠ PARTITION_ERROR ∧
    (WASM_API_ERR ≠ PARTITION_DONE → WASM_API_ERR ≠ PARTITION_YIELDED →
      WASM_API_ERR = WASM_API_ERR) ∧
    sched_dispatch WASM_API_ERR = SchedBranch.unknown :=
  C9_partition_error_unreachable stOpenFail 0 oracleYield WASM_API_ERR
    (by decide)

/-- Helper: writing a slot twice collapses to the last write. -/
theorem setPartition_idem (st : ApiState) (partition_id : Int)
    (p q : wasm_partition) :
    setPartition (setPartition st partition_id p) partition_id q =
      setPartition st partition_id q := by
  unfold setPartition
  simp [Function.update_idem]

/-- Helper: when the slot holds a partition whose results buffer is already
allocated, a run slice is the post-results phase on the unchanged partition
(the malloc step is skipped, the slot is rewritten with the same pointer). -/
theorem run_eq_afterResults (st : ApiState) (partition_id : Int)
    (p : wasm_partition) (o : RunOracle)
    (hp : st.partitions partition_id = some p)
    (hres : p.results ≠ none) :
    wasm_api_run_partition st partition_id o =
      some (runAfterResults (setPartition st partition_id p) partition_id p
        o) := by
  have h1 : ¬(p.results = none ∧ o.resultsMallocOk = false) := by
    intro hc
    exact hres hc.1
  unfold wasm_api_run_partition
  rw [hp]
  show (if p.results = none ∧ o.resultsMallocOk = false then
          some (st, WASM_API_ERR)
        else
          some (runAfterResults
            (setPartition st partition_id
              (if p.results = none then { p with results := some none }
                else p))
            partition_id
            (if p.results = none then { p with results := some none } else p)
            o)) =
      some (runAfterResults (setPartition st partition_id p) partition_id p o)
  rw [if_neg h1, if_neg hres]

/-- Helper: with a call already in flight the start block is skipped entirely
and the retained future is polled. -/
theorem runAfterResults_inflight (st : ApiState) (partition_id : Int)
    (p : wasm_partition) (o : RunOracle) (fid : Nat)
    (hinst : p.instantiated = true) (hfut : p.future = some fid) :
    runAfterResults st partition_id p o =
      pollStep st partition_id p o.poll := by
  unfold runAfterResults
  rw [if_neg (by simp [hinst]), hfut]

/-- Helper: with no call in flight, a found export and a clean start, the new
future is stored in flight and polled. -/
theorem runAfterResults_start_ok (st : ApiState) (partition_id : Int)
    (p : wasm_partition) (o : RunOracle) (f fid : Nat)
    (hinst : p.instantiated = true) (hfut : p.future = none)
    (hef : o.exportFunc = some f)
    (hso : o.start = StartOutcome.started fid) :
    runAfterResults st partition_id p o =
      pollStep
        (setPartition st partition_id
          { p with exported_func := some f, future := some fid })
        partition_id
        { p with exported_func := some f, future := some fid } o.poll := by
  unfold runAfterResults
  rw [if_neg (by simp [hinst]), hfut, hef, hso]

/-- Helper: with no call in flight and a synchronous error from starting the
call, the returned future pointer is stored in the partition (not cleared)
and the slice returns WASM_API_ERR. -/
theorem runAfterResults_start_err (st : ApiState) (partition_id : Int)
    (p : wasm_partition) (o : RunOracle) (f : Nat) (fr : Option Nat)
    (hinst : p.instantiated = true) (hfut : p.future = none)
    (hef : o.exportFunc = some f)
    (hso : o.start = StartOutcome.errSync fr) :
    runAfterResults st partition_id p o =
      (setPartition st partition_id
        { p with exported_func := some f, future := fr }, WASM_API_ERR) := by
  unfold runAfterResults
  rw [if_neg (by simp [hinst]), hfut, hef, hso]

/-- C4: sched_cycle advances its partition index to (index + 1) mod
NUM_MAX_PARTITIONS exactly on PARTITION_YIELDED; any other slice result
(PARTITION_DONE, PARTITION_ERROR, or the WASM_API_ERR failure value) leaves
it unchanged; and in a run where every slice yields, the index cycles with
period NUM_MAX_PARTITIONS (and not with period 1). -/
theorem C4_round_robin_index (i : Nat) (s : Int) :
    sched_next_index i PARTITION_YIELDED = (i + 1) % NUM_MAX_PARTITIONS ∧
    (s ≠ PARTITION_YIELDED → sched_next_index i s = i) ∧
    sched_next_index i PARTITION_DONE = i ∧
    sched_next_index i WASM_API_ERR = i ∧
    sched_next_index i PARTITION_ERROR = i ∧
    (i < NUM_MAX_PARTITIONS →
      Nat.iterate (fun j => sched_next_index j PARTITION_YIELDED)
        NUM_MAX_PARTITIONS i = i ∧
      sched_next_index i PARTITION_YIELDED ≠ i) := by
  refine ⟨by simp [sched_next_index], fun h => by simp [sched_next_index, h],
    by simp [sched_next_index, PARTITION_DONE, PARTITION_YIELDED],
    by simp [sched_next_index, WASM_API_ERR, PARTITION_YIELDED],
    by simp [sched_next_index, PARTITION_ERROR, PARTITION_YIELDED],
    fun hi => ?_⟩
  have h2 : NUM_MAX_PARTITIONS = 2 := rfl
  rw [h2] at hi ⊢
  interval_cases i <;> exact ⟨by decide, by decide⟩

/-- Witness for C4: a completed slice leaves index 0 unchanged, and two
all-yield steps bring index 1 back to itself. -/
theorem C4_round_robin_index_witness :
    sched_next_index 0 PARTITION_DONE = 0 ∧
    Nat.iterate (fun j => sched_next_index j PARTITION_YIELDED)
      NUM_MAX_PARTITIONS 1 = 1 :=
  ⟨(C4_round_robin_index 0 PARTITION_DONE).2.1 (by decide),
    ((C4_round_robin_index 1 PARTITION_DONE).2.2.2.2.2 (by decide)).1⟩

/-- C5: the claim says a trap or engine error while starting or polling makes
the slice clear the in-flight handle and return Failed. The code disagrees on
both failure kinds: a poll that reports a trap is indistinguishable from
completion for the code (it never reads the trap/error out-parameters), so
the slice returns PARTITION_DONE — not a failure value; and a synchronous
error while starting the call returns WASM_API_ERR with partition->future
left holding whatever pointer the failed call returned (here 9), not
cleared. The partition does remain instantiated in both cases. -/
theorem C5_trap_and_start_error_mishandled :
    Option.map Prod.snd (wasm_api_run_partition stInflight 0 oracleTrap) =
      some PARTITION_DONE ∧
    PARTITION_DONE ≠ WASM_API_ERR ∧ PARTITION_DONE ≠ PARTITION_ERROR ∧
    Option.map (fun x => Option.map wasm_partition.future (x.1.partitions 0))
      (wasm_api_run_partition stInflight 0 oracleTrap) = some (some none) ∧
    Option.map
      (fun x => Option.map wasm_partition.instantiated (x.1.partitions 0))
      (wasm_api_run_partition stInflight 0 oracleTrap) = some (some true) ∧
    Option.map Prod.snd (wasm_api_run_partition stIdle 0 oracleStartErr) =
      some WASM_API_ERR ∧
    Option.map (fun x => Option.map wasm_partition.future (x.1.partitions 0))
      (wasm_api_run_partition stIdle 0 oracleStartErr) =
      some (some (some 9)) := by
  decide

/-- C7: on a poll that reports completion the slice captures the result into
the results buffer, clears the in-flight future and returns PARTITION_DONE
(part 1); a slice on a partition with no call in flight looks up the export
and starts a brand-new call, leaving the fresh future in flight (part 2,
shown with a suspending poll); and a slice on a partition with a retained
in-flight call skips the whole lookup/start block — the oracle's export and
start fields are unconstrained — and polls the same future (part 3). -/
theorem C7_complete_restart_resume (st : ApiState) (partition_id : Int)
    (p : wasm_partition) (o : RunOracle)
    (hp : st.partitions partition_id = some p)
    (hres : p.results ≠ none)
    (hinst : p.instantiated = true) :
    (∀ fid v, p.future = some fid → o.poll = PollOutcome.completed v →
      wasm_api_run_partition st partition_id o =
        some (setPartition st partition_id
          { p with results := some (some v), future := none },
          PARTITION_DONE)) ∧
    (∀ f nf, p.future = none → o.exportFunc = some f →
      o.start = StartOutcome.started nf →
      o.poll = PollOutcome.suspended →
      wasm_api_run_partition st partition_id o =
        some (setPartition st partition_id
          { p with exported_func := some f, future := some nf },
          PARTITION_YIELDED)) ∧
    (∀ fid, p.future = some fid → o.poll = PollOutcome.suspended →
      wasm_api_run_partition st partition_id o =
        some (setPartition st partition_id p, PARTITION_YIELDED)) := by
  refine ⟨?_, ?_, ?_⟩
  · intro fid v hfut hpoll
    rw [run_eq_afterResults st partition_id p o hp hres,
      runAfterResults_inflight _ _ _ _ fid hinst hfut, hpoll]
    simp [pollStep, setPartition_idem]
  · intro f nf hfut hef hso hpoll
    rw [run_eq_afterResults st partition_id p o hp hres,
      runAfterResults_start_ok _ _ _ _ f nf hinst hfut hef hso, hpoll]
    simp [pollStep, setPartition_idem]
  · intro fid hfut hpoll
    rw [run_eq_afterResults st partition_id p o hp hres,
      runAfterResults_inflight _ _ _ _ fid hinst hfut, hpoll]
    simp [pollStep]

/-- Witness for C7: polling the concrete in-flight partition to completion
with result 55 clears its future and returns PARTITION_DONE. -/
theorem C7_complete_restart_resume_witness :
    wasm_api_run_partition stInflight 0 oracleComplete =
      some (setPartition stInflight 0
        { pInflight with results := some (some 55), future := none },
        PARTITION_DONE) :=
  (C7_complete_restart_resume stInflight 0 pInflight oracleComplete
    (by decide) (by decide) (by decide)).1 7 55 (by decide) (by decide)

/-- C8: the claim's description of wasm_api_cleanup in isolation matches the
code (module and store of the instantiated partition released exactly once,
every occupied slot's allocation freed, slots cleared, engine released), but
its safety conjunct fails: after a successful load of partition 0 and a load
of partition 1 that fails at the compile step, cleanup reads the slot that
the failed load left pointing at an already-freed struct and frees that
allocation (id 5) a second time — freedAllocs ends as [5, 0, 5], a
use-after-free and double free, not a release of each resource exactly
once. -/
theorem C8_cleanup_double_free_after_partial_load :
    partialFailStates.1.2 = WASM_API_OK ∧
    partialFailStates.2.2 = WASM_API_ERR ∧
    cleanupAfterPartialFail.deletedModules = [some 3] ∧
    cleanupAfterPartialFail.deletedStores = [some 1] ∧
    cleanupAfterPartialFail.partitions 0 = none ∧
    cleanupAfterPartialFail.partitions 1 = none ∧
    cleanupAfterPartialFail.engine = false ∧
    cleanupAfterPartialFail.freedAllocs = [5, 0, 5] ∧
    cleanupAfterPartialFail.freedAllocs.count 5 = 2 := by
  decide

/-- C10: wasm_api_inject_fuel returns WASM_API_OK for every loaded partition
whether or not wasmtime_context_set_fuel reports an error: the error is
passed to catch_err, which returns WASM_API_ERR, but that value is discarded,
so the caller can never observe the failure. -/
theorem C10_inject_fuel_swallows_error (st : ApiState) (partition_id : Int)
    (fuel_amount : Nat) (yieldOn setFuelErr : Bool) (p : wasm_partition)
    (hp : st.partitions partition_id = some p) :
    Option.map Prod.snd
      (wasm_api_inject_fuel st partition_id fuel_amount yieldOn setFuelErr) =
      some WASM_API_OK ∧
    catch_err ERR setFuelErr false = WASM_API_ERR := by
  constructor
  · unfold wasm_api_inject_fuel
    rw [hp]
    rfl
  · unfold catch_err
    repeat' split
    all_goals rfl

/-- Witness for C10: injecting fuel into the loaded partition 0 while the
engine's set-fuel reports an error still returns WASM_API_OK. -/
theorem C10_inject_fuel_swallows_error_witness :
    Option.map Prod.snd
      (wasm_api_inject_fuel loadedState 0 FUEL_AMOUNT true true) =
      some WASM_API_OK ∧
    catch_err ERR true false = WASM_API_ERR :=
  C10_inject_fuel_swallows_error loadedState 0 FUEL_AMOUNT true true
    ((loadedState.partitions 0).getD junk0) (by decide)

end WasmFuelApi
